import Mathlib

/-!
# mkxp `gl-util.h`: typed GL handles and the texture + framebuffer pair

A shallow embedding of `src/gl-util.h`.

* `GLuint` / `GLenum` values are `Nat`, `int` / `GLint` / `GLsizei` values are
  `Int`; the two additions the header performs are wrapped to 32 bits
  (`addInt`, `addUInt`).
* The header never touches the driver directly: every effect goes through the
  function table `gl`.  The table is a parameter of the embedding
  (`GLFunctions σ`, for an arbitrary driver state `σ`), every operation threads
  the driver state explicitly, and an operation taking `TEXFBO &obj` returns the
  updated object next to the new driver state.
* The GL enumeration constants come from headers that are not part of the
  sources; they are a parameter as well (`GLConsts`).
-/

namespace GLUtil

/-! ## Machine integers -/

/-- Two's complement wrap-around of a mathematical integer to a 32-bit `int`. -/
def wrapInt32 (x : Int) : Int :=
  (x + 2147483648) % 4294967296 - 2147483648

/-- Addition of two `int` values.  Signed overflow is undefined in C++; the
embedding wraps, and every statement that depends on a sum assumes it fits. -/
def addInt (a b : Int) : Int :=
  wrapInt32 (a + b)

/-- Addition of two `unsigned` values (`GLenum + unsigned`), modulo `2^32`. -/
def addUInt (a b : Nat) : Nat :=
  (a + b) % 4294967296

/-! ## What the header consumes: enumeration constants and the function table -/

/-- The native enumeration constants `gl-util.h` names.  Their values are fixed
by the GL headers included through `gl-fun.h`, which is not among the sources,
so the embedding takes them as a parameter. -/
structure GLConsts where
  GL_TEXTURE_2D : Nat
  GL_RGBA8 : Nat
  GL_RGBA : Nat
  GL_UNSIGNED_BYTE : Nat
  GL_TEXTURE_WRAP_S : Nat
  GL_TEXTURE_WRAP_T : Nat
  GL_TEXTURE_MIN_FILTER : Nat
  GL_TEXTURE_MAG_FILTER : Nat
  GL_REPEAT : Nat
  GL_CLAMP_TO_EDGE : Nat
  GL_LINEAR : Nat
  GL_NEAREST : Nat
  GL_DRAW_FRAMEBUFFER : Nat
  GL_READ_FRAMEBUFFER : Nat
  GL_FRAMEBUFFER : Nat
  GL_COLOR_ATTACHMENT0 : Nat
  GL_COLOR_BUFFER_BIT : Nat
  GL_UNPACK_ROW_LENGTH : Nat
  GL_UNPACK_SKIP_PIXELS : Nat
  GL_UNPACK_SKIP_ROWS : Nat

/-- The entries of the function table `gl` used by textures, framebuffers and
pixel transfer, over a driver state `σ`.  A `GLuint *` argument that points at a
single identifier is an in/out cell for the `Gen*` entries (argument: the cell
before the call, result: the cell after it) and a plain value for the `Delete*`
entries; a `const void *` is the pointer value, `0` being the null pointer. -/
structure GLFunctions (σ : Type) where
  GenTextures : Int → Nat → σ → Nat × σ
  DeleteTextures : Int → Nat → σ → σ
  BindTexture : Nat → Nat → σ → σ
  TexImage2D : Nat → Int → Int → Int → Int → Int → Nat → Nat → Nat → σ → σ
  TexSubImage2D : Nat → Int → Int → Int → Int → Int → Nat → Nat → Nat → σ → σ
  TexParameteri : Nat → Nat → Int → σ → σ
  GenFramebuffers : Int → Nat → σ → Nat × σ
  DeleteFramebuffers : Int → Nat → σ → σ
  BindFramebuffer : Nat → Nat → σ → σ
  FramebufferTexture2D : Nat → Nat → Nat → Nat → Int → σ → σ
  BlitFramebuffer : Int → Int → Int → Int → Int → Int → Int → Int → Nat → Nat → σ → σ
  Clear : Nat → σ → σ
  PixelStorei : Nat → Int → σ → σ

/-! ## `DEF_GL_ID`, expanded once per resource category -/

namespace TEX

/-- `TEX::ID`: a texture name. -/
structure ID where
  gl : Nat
  deriving Repr, DecidableEq

/-- `explicit ID(GLuint gl = 0) : gl(gl)`, called with an argument. -/
def ID.ctor (gl : Nat) : ID :=
  ID.mk gl

/-- `ID()`: the constructor with its default argument. -/
def ID.ctor0 : ID :=
  ID.ctor 0

/-- `ID &operator=(const ID &o)`. -/
def ID.assign (_self o : ID) : ID :=
  ID.mk o.gl

/-- `bool operator==(const ID &o) const`. -/
def ID.eq (self o : ID) : Bool :=
  self.gl == o.gl

end TEX

namespace FBO

/-- `FBO::ID`: a framebuffer name. -/
structure ID where
  gl : Nat
  deriving Repr, DecidableEq

/-- `explicit ID(GLuint gl = 0) : gl(gl)`, called with an argument. -/
def ID.ctor (gl : Nat) : ID :=
  ID.mk gl

/-- `ID()`: the constructor with its default argument. -/
def ID.ctor0 : ID :=
  ID.ctor 0

/-- `ID &operator=(const ID &o)`. -/
def ID.assign (_self o : ID) : ID :=
  ID.mk o.gl

/-- `bool operator==(const ID &o) const`. -/
def ID.eq (self o : ID) : Bool :=
  self.gl == o.gl

end FBO

namespace VAO

/-- `VAO::ID`: a vertex array name. -/
structure ID where
  gl : Nat
  deriving Repr, DecidableEq

/-- `explicit ID(GLuint gl = 0) : gl(gl)`, called with an argument. -/
def ID.ctor (gl : Nat) : ID :=
  ID.mk gl

/-- `ID()`: the constructor with its default argument. -/
def ID.ctor0 : ID :=
  ID.ctor 0

/-- `ID &operator=(const ID &o)`. -/
def ID.assign (_self o : ID) : ID :=
  ID.mk o.gl

/-- `bool operator==(const ID &o) const`. -/
def ID.eq (self o : ID) : Bool :=
  self.gl == o.gl

end VAO

namespace GenericBO

/-- `GenericBO<target>::ID`: a buffer name, one type per bind target. -/
structure ID (target : Nat) where
  gl : Nat
  deriving Repr, DecidableEq

/-- `explicit ID(GLuint gl = 0) : gl(gl)`, called with an argument. -/
def ID.ctor (target : Nat) (gl : Nat) : ID target :=
  ID.mk gl

/-- `ID()`: the constructor with its default argument. -/
def ID.ctor0 (target : Nat) : ID target :=
  ID.ctor target 0

/-- `ID &operator=(const ID &o)`. -/
def ID.assign {target : Nat} (_self o : ID target) : ID target :=
  ID.mk o.gl

/-- `bool operator==(const ID &o) const`. -/
def ID.eq {target : Nat} (self o : ID target) : Bool :=
  self.gl == o.gl

end GenericBO

/-! ## `namespace TEX` -/

namespace TEX

/-- `TEX::gen`: `ID id; gl.GenTextures(1, &id.gl); return id;`. -/
def gen {σ : Type} (gl : GLFunctions σ) (s : σ) : ID × σ :=
  let id := ID.ctor0
  let r := gl.GenTextures 1 id.gl s
  (ID.mk r.1, r.2)

/-- `TEX::del`. -/
def del {σ : Type} (gl : GLFunctions σ) (id : ID) (s : σ) : σ :=
  gl.DeleteTextures 1 id.gl s

/-- `TEX::bind`. -/
def bind {σ : Type} (gl : GLFunctions σ) (c : GLConsts) (id : ID) (s : σ) : σ :=
  gl.BindTexture c.GL_TEXTURE_2D id.gl s

/-- `TEX::unbind`. -/
def unbind {σ : Type} (gl : GLFunctions σ) (c : GLConsts) (s : σ) : σ :=
  bind gl c (ID.ctor 0) s

/-- `TEX::uploadImage`. -/
def uploadImage {σ : Type} (gl : GLFunctions σ) (c : GLConsts)
    (width height : Int) (data : Nat) (format : Nat) (s : σ) : σ :=
  gl.TexImage2D c.GL_TEXTURE_2D 0 (c.GL_RGBA8 : Int) width height 0 format
    c.GL_UNSIGNED_BYTE data s

/-- `TEX::uploadSubImage`. -/
def uploadSubImage {σ : Type} (gl : GLFunctions σ) (c : GLConsts)
    (x y width height : Int) (data : Nat) (format : Nat) (s : σ) : σ :=
  gl.TexSubImage2D c.GL_TEXTURE_2D 0 x y width height format c.GL_UNSIGNED_BYTE data s

/-- `TEX::allocEmpty`. -/
def allocEmpty {σ : Type} (gl : GLFunctions σ) (c : GLConsts)
    (width height : Int) (s : σ) : σ :=
  gl.TexImage2D c.GL_TEXTURE_2D 0 (c.GL_RGBA8 : Int) width height 0 c.GL_RGBA
    c.GL_UNSIGNED_BYTE 0 s

/-- `TEX::setRepeat`. -/
def setRepeat {σ : Type} (gl : GLFunctions σ) (c : GLConsts) (mode : Bool) (s : σ) : σ :=
  let s1 := gl.TexParameteri c.GL_TEXTURE_2D c.GL_TEXTURE_WRAP_S
    (if mode then (c.GL_REPEAT : Int) else (c.GL_CLAMP_TO_EDGE : Int)) s
  gl.TexParameteri c.GL_TEXTURE_2D c.GL_TEXTURE_WRAP_T
    (if mode then (c.GL_REPEAT : Int) else (c.GL_CLAMP_TO_EDGE : Int)) s1

/-- `TEX::setSmooth`. -/
def setSmooth {σ : Type} (gl : GLFunctions σ) (c : GLConsts) (mode : Bool) (s : σ) : σ :=
  let s1 := gl.TexParameteri c.GL_TEXTURE_2D c.GL_TEXTURE_MIN_FILTER
    (if mode then (c.GL_LINEAR : Int) else (c.GL_NEAREST : Int)) s
  gl.TexParameteri c.GL_TEXTURE_2D c.GL_TEXTURE_MAG_FILTER
    (if mode then (c.GL_LINEAR : Int) else (c.GL_NEAREST : Int)) s1

end TEX

/-! ## `namespace FBO` -/

namespace FBO

/-- `enum Mode { Draw = 0, Read = 1, Generic = 2 }`. -/
inductive Mode where
  | Draw
  | Read
  | Generic
  deriving Repr, DecidableEq

/-- The enumerator values of `Mode`. -/
def Mode.toNat : Mode → Nat
  | Mode.Draw => 0
  | Mode.Read => 1
  | Mode.Generic => 2

/-- `enum BlitMode { Nearest = 0, Linear = 1 }`. -/
inductive BlitMode where
  | Nearest
  | Linear
  deriving Repr, DecidableEq

/-- The enumerator values of `BlitMode`. -/
def BlitMode.toNat : BlitMode → Nat
  | BlitMode.Nearest => 0
  | BlitMode.Linear => 1

/-- `FBO::gen`: `ID id; gl.GenFramebuffers(1, &id.gl); return id;`. -/
def gen {σ : Type} (gl : GLFunctions σ) (s : σ) : ID × σ :=
  let id := ID.ctor0
  let r := gl.GenFramebuffers 1 id.gl s
  (ID.mk r.1, r.2)

/-- `FBO::del`. -/
def del {σ : Type} (gl : GLFunctions σ) (id : ID) (s : σ) : σ :=
  gl.DeleteFramebuffers 1 id.gl s

/-- The table `static const GLenum modes[]` of `FBO::bind`. -/
def bindModes (c : GLConsts) : List Nat :=
  [c.GL_DRAW_FRAMEBUFFER, c.GL_READ_FRAMEBUFFER, c.GL_FRAMEBUFFER]

/-- `FBO::bind`: `gl.BindFramebuffer(modes[mode], id.gl)`. -/
def bind {σ : Type} (gl : GLFunctions σ) (c : GLConsts) (id : ID) (mode : Mode) (s : σ) : σ :=
  gl.BindFramebuffer
    ((bindModes c).get ⟨mode.toNat, by cases mode <;> simp [bindModes, Mode.toNat]⟩) id.gl s

/-- `FBO::unbind`. -/
def unbind {σ : Type} (gl : GLFunctions σ) (c : GLConsts) (mode : Mode) (s : σ) : σ :=
  bind gl c (ID.ctor 0) mode s

/-- `FBO::setTarget(target, colorAttach)`; the header's default for
`colorAttach` is `0`. -/
def setTarget {σ : Type} (gl : GLFunctions σ) (c : GLConsts) (target : TEX.ID)
    (colorAttach : Nat) (s : σ) : σ :=
  gl.FramebufferTexture2D c.GL_FRAMEBUFFER (addUInt c.GL_COLOR_ATTACHMENT0 colorAttach)
    c.GL_TEXTURE_2D target.gl 0 s

/-- The table `static const GLenum modes[]` of `FBO::blit`. -/
def blitModes (c : GLConsts) : List Nat :=
  [c.GL_NEAREST, c.GL_LINEAR]

/-- `FBO::blit`, the overload with independent source and destination sizes. -/
def blit {σ : Type} (gl : GLFunctions σ) (c : GLConsts)
    (srcX srcY srcW srcH dstX dstY dstW dstH : Int) (mode : BlitMode) (s : σ) : σ :=
  gl.BlitFramebuffer srcX srcY (addInt srcX srcW) (addInt srcY srcH)
    dstX dstY (addInt dstX dstW) (addInt dstY dstH)
    c.GL_COLOR_BUFFER_BIT
    ((blitModes c).get ⟨mode.toNat, by cases mode <;> simp [blitModes, BlitMode.toNat]⟩) s

/-- `FBO::blit`, the overload taking one size for both rectangles. -/
def blit6 {σ : Type} (gl : GLFunctions σ) (c : GLConsts)
    (srcX srcY dstX dstY srcW srcH : Int) (mode : BlitMode) (s : σ) : σ :=
  blit gl c srcX srcY srcW srcH dstX dstY srcW srcH mode s

/-- `FBO::clear`. -/
def clear {σ : Type} (gl : GLFunctions σ) (c : GLConsts) (s : σ) : σ :=
  gl.Clear c.GL_COLOR_BUFFER_BIT s

end FBO

/-! ## `namespace PixelStore` -/

namespace PixelStore

/-- `PixelStore::setupSubImage`. -/
def setupSubImage {σ : Type} (gl : GLFunctions σ) (c : GLConsts)
    (imgWidth subX subY : Int) (s : σ) : σ :=
  let s1 := gl.PixelStorei c.GL_UNPACK_ROW_LENGTH imgWidth s
  let s2 := gl.PixelStorei c.GL_UNPACK_SKIP_PIXELS subX s1
  gl.PixelStorei c.GL_UNPACK_SKIP_ROWS subY s2

/-- `PixelStore::reset`. -/
def reset {σ : Type} (gl : GLFunctions σ) (c : GLConsts) (s : σ) : σ :=
  setupSubImage gl c 0 0 0 s

end PixelStore

/-! ## `struct TEXFBO` -/

/-- `struct TEXFBO { TEX::ID tex; FBO::ID fbo; int width, height; }`. -/
structure TEXFBO where
  tex : TEX.ID
  fbo : FBO.ID
  width : Int
  height : Int
  deriving Repr, DecidableEq

namespace TEXFBO

/-- `TEXFBO() : tex(0), fbo(0), width(0), height(0)`. -/
def ctor : TEXFBO :=
  TEXFBO.mk (TEX.ID.ctor 0) (FBO.ID.ctor 0) 0 0

/-- `bool operator==(const TEXFBO &other) const`. -/
def eq (self other : TEXFBO) : Bool :=
  TEX.ID.eq self.tex other.tex && FBO.ID.eq self.fbo other.fbo

/-- `TEXFBO::init`. -/
def init {σ : Type} (gl : GLFunctions σ) (c : GLConsts) (obj : TEXFBO) (s : σ) : TEXFBO × σ :=
  let t := TEX.gen gl s
  let obj1 := TEXFBO.mk (TEX.ID.assign obj.tex t.1) obj.fbo obj.width obj.height
  let f := FBO.gen gl t.2
  let obj2 := TEXFBO.mk obj1.tex (FBO.ID.assign obj1.fbo f.1) obj1.width obj1.height
  let s3 := TEX.bind gl c obj2.tex f.2
  let s4 := TEX.setRepeat gl c false s3
  let s5 := TEX.setSmooth gl c false s4
  (obj2, s5)

/-- `TEXFBO::allocEmpty`. -/
def allocEmpty {σ : Type} (gl : GLFunctions σ) (c : GLConsts) (obj : TEXFBO)
    (width height : Int) (s : σ) : TEXFBO × σ :=
  let s1 := TEX.bind gl c obj.tex s
  let s2 := TEX.allocEmpty gl c width height s1
  let obj1 := TEXFBO.mk obj.tex obj.fbo width obj.height
  let obj2 := TEXFBO.mk obj1.tex obj1.fbo obj1.width height
  (obj2, s2)

/-- `TEXFBO::linkFBO`. -/
def linkFBO {σ : Type} (gl : GLFunctions σ) (c : GLConsts) (obj : TEXFBO) (s : σ) : TEXFBO × σ :=
  let s1 := FBO.bind gl c obj.fbo FBO.Mode.Draw s
  let s2 := FBO.setTarget gl c obj.tex 0 s1
  (obj, s2)

/-- `TEXFBO::fini`. -/
def fini {σ : Type} (gl : GLFunctions σ) (obj : TEXFBO) (s : σ) : TEXFBO × σ :=
  let s1 := FBO.del gl obj.fbo s
  let s2 := TEX.del gl obj.tex s1
  (obj, s2)

end TEXFBO

/-! ## Observing the driver calls

`logged gl` is the function table `gl` with a journal: every entry forwards to
`gl` and appends the call it received, arguments included, to a list. -/

/-- One call through the function table, with its arguments. -/
inductive GLCall where
  | GenTextures (n : Int) (cell : Nat)
  | DeleteTextures (n : Int) (name : Nat)
  | BindTexture (target texture : Nat)
  | TexImage2D (target : Nat) (level internalformat width height border : Int)
      (format type data : Nat)
  | TexSubImage2D (target : Nat) (level xoffset yoffset width height : Int)
      (format type data : Nat)
  | TexParameteri (target pname : Nat) (param : Int)
  | GenFramebuffers (n : Int) (cell : Nat)
  | DeleteFramebuffers (n : Int) (name : Nat)
  | BindFramebuffer (target framebuffer : Nat)
  | FramebufferTexture2D (target attachment textarget texture : Nat) (level : Int)
  | BlitFramebuffer (srcX0 srcY0 srcX1 srcY1 dstX0 dstY0 dstX1 dstY1 : Int)
      (mask filter : Nat)
  | Clear (mask : Nat)
  | PixelStorei (pname : Nat) (param : Int)
  deriving Repr, DecidableEq

/-- The function table `gl` with every call journalled. -/
def logged {σ : Type} (gl : GLFunctions σ) : GLFunctions (σ × List GLCall) where
  GenTextures n cell st :=
    ((gl.GenTextures n cell st.1).1,
      ((gl.GenTextures n cell st.1).2, st.2 ++ [GLCall.GenTextures n cell]))
  DeleteTextures n name st :=
    (gl.DeleteTextures n name st.1, st.2 ++ [GLCall.DeleteTextures n name])
  BindTexture target texture st :=
    (gl.BindTexture target texture st.1, st.2 ++ [GLCall.BindTexture target texture])
  TexImage2D target level internalformat width height border format type data st :=
    (gl.TexImage2D target level internalformat width height border format type data st.1,
      st.2 ++ [GLCall.TexImage2D target level internalformat width height border format
        type data])
  TexSubImage2D target level xoffset yoffset width height format type data st :=
    (gl.TexSubImage2D target level xoffset yoffset width height format type data st.1,
      st.2 ++ [GLCall.TexSubImage2D target level xoffset yoffset width height format
        type data])
  TexParameteri target pname param st :=
    (gl.TexParameteri target pname param st.1,
      st.2 ++ [GLCall.TexParameteri target pname param])
  GenFramebuffers n cell st :=
    ((gl.GenFramebuffers n cell st.1).1,
      ((gl.GenFramebuffers n cell st.1).2, st.2 ++ [GLCall.GenFramebuffers n cell]))
  DeleteFramebuffers n name st :=
    (gl.DeleteFramebuffers n name st.1, st.2 ++ [GLCall.DeleteFramebuffers n name])
  BindFramebuffer target framebuffer st :=
    (gl.BindFramebuffer target framebuffer st.1,
      st.2 ++ [GLCall.BindFramebuffer target framebuffer])
  FramebufferTexture2D target attachment textarget texture level st :=
    (gl.FramebufferTexture2D target attachment textarget texture level st.1,
      st.2 ++ [GLCall.FramebufferTexture2D target attachment textarget texture level])
  BlitFramebuffer srcX0 srcY0 srcX1 srcY1 dstX0 dstY0 dstX1 dstY1 mask filter st :=
    (gl.BlitFramebuffer srcX0 srcY0 srcX1 srcY1 dstX0 dstY0 dstX1 dstY1 mask filter st.1,
      st.2 ++ [GLCall.BlitFramebuffer srcX0 srcY0 srcX1 srcY1 dstX0 dstY0 dstX1 dstY1
        mask filter])
  Clear mask st :=
    (gl.Clear mask st.1, st.2 ++ [GLCall.Clear mask])
  PixelStorei pname param st :=
    (gl.PixelStorei pname param st.1, st.2 ++ [GLCall.PixelStorei pname param])

/-! ## A reference driver

The driver below the function table is an external collaborator.  For the
statements that speak about the driver's own state (what is bound, what is
attached, the pixel-transfer parameters) the table is instantiated with the
reference driver `glModel`. -/

/-- Modelled from the spec: the driver-side state the header's operations act
on (the graphics driver is not part of the sources).  Bind targets are named
slots of global state holding the currently bound resource; a framebuffer has
color attachment points; a texture has sampling parameters and sized storage;
the pixel-transfer parameters are global state.  Object lifetime and pixel
contents are not tracked. -/
structure GLState where
  names : Nat
  boundTexture : Nat → Nat
  texParameter : Nat × Nat → Int
  texStorage : Nat → Int × Int
  drawFramebuffer : Nat
  readFramebuffer : Nat
  colorAttachment : Nat × Nat → Nat
  unpack : Nat → Int

/-- Modelled from the spec: the reference driver (the graphics driver is not
part of the sources).  Creation hands out a fresh name; `bind` makes a resource
the active one of a bind target, the generic framebuffer target standing for
both the draw and the read target; texture calls act on the texture bound to
their target; `FramebufferTexture2D` attaches a texture as a color output of
the framebuffer bound for drawing (for the read target: bound for reading);
`PixelStorei` records one global pixel-transfer parameter. -/
def glModel (c : GLConsts) : GLFunctions GLState where
  GenTextures n _cell s :=
    if 1 ≤ n then (s.names + 1, { s with names := s.names + 1 }) else (_cell, s)
  DeleteTextures _n _name s := s
  BindTexture target texture s :=
    { s with boundTexture := Function.update s.boundTexture target texture }
  TexImage2D target _level _internalformat width height _border _format _type _data s :=
    { s with texStorage := Function.update s.texStorage (s.boundTexture target) (width, height) }
  TexSubImage2D _target _level _xoffset _yoffset _width _height _format _type _data s := s
  TexParameteri target pname param s :=
    { s with texParameter := Function.update s.texParameter (s.boundTexture target, pname) param }
  GenFramebuffers n _cell s :=
    if 1 ≤ n then (s.names + 1, { s with names := s.names + 1 }) else (_cell, s)
  DeleteFramebuffers _n _name s := s
  BindFramebuffer target framebuffer s :=
    if target = c.GL_FRAMEBUFFER then
      { s with drawFramebuffer := framebuffer, readFramebuffer := framebuffer }
    else if target = c.GL_DRAW_FRAMEBUFFER then
      { s with drawFramebuffer := framebuffer }
    else if target = c.GL_READ_FRAMEBUFFER then
      { s with readFramebuffer := framebuffer }
    else s
  FramebufferTexture2D target attachment _textarget texture _level s :=
    if target = c.GL_FRAMEBUFFER ∨ target = c.GL_DRAW_FRAMEBUFFER then
      { s with colorAttachment :=
          Function.update s.colorAttachment (s.drawFramebuffer, attachment) texture }
    else if target = c.GL_READ_FRAMEBUFFER then
      { s with colorAttachment :=
          Function.update s.colorAttachment (s.readFramebuffer, attachment) texture }
    else s
  BlitFramebuffer _ _ _ _ _ _ _ _ _ _ s := s
  Clear _mask s := s
  PixelStorei pname param s :=
    { s with unpack := Function.update s.unpack pname param }

/-- The values the OpenGL registry assigns to the constants; a concrete
instance of the parameter `GLConsts`. -/
def glRegistry : GLConsts where
  GL_TEXTURE_2D := 0x0DE1
  GL_RGBA8 := 0x8058
  GL_RGBA := 0x1908
  GL_UNSIGNED_BYTE := 0x1401
  GL_TEXTURE_WRAP_S := 0x2802
  GL_TEXTURE_WRAP_T := 0x2803
  GL_TEXTURE_MIN_FILTER := 0x2801
  GL_TEXTURE_MAG_FILTER := 0x2800
  GL_REPEAT := 0x2901
  GL_CLAMP_TO_EDGE := 0x812F
  GL_LINEAR := 0x2601
  GL_NEAREST := 0x2600
  GL_DRAW_FRAMEBUFFER := 0x8CA9
  GL_READ_FRAMEBUFFER := 0x8CA8
  GL_FRAMEBUFFER := 0x8D40
  GL_COLOR_ATTACHMENT0 := 0x8CE0
  GL_COLOR_BUFFER_BIT := 0x4000
  GL_UNPACK_ROW_LENGTH := 0x0CF2
  GL_UNPACK_SKIP_PIXELS := 0x0CF4
  GL_UNPACK_SKIP_ROWS := 0x0CF3

/-- A driver that ignores every call and creates nothing; under `logged` its
journal is all there is to observe. -/
def glNull : GLFunctions Unit where
  GenTextures _ cell u := (cell, u)
  DeleteTextures _ _ u := u
  BindTexture _ _ u := u
  TexImage2D _ _ _ _ _ _ _ _ _ u := u
  TexSubImage2D _ _ _ _ _ _ _ _ _ u := u
  TexParameteri _ _ _ u := u
  GenFramebuffers _ cell u := (cell, u)
  DeleteFramebuffers _ _ u := u
  BindFramebuffer _ _ u := u
  FramebufferTexture2D _ _ _ _ _ u := u
  BlitFramebuffer _ _ _ _ _ _ _ _ _ _ u := u
  Clear _ u := u
  PixelStorei _ _ u := u

/-! ## Histories of a render target -/

/-- The two lifecycle steps of a `TEXFBO` other than allocation. -/
inductive Step where
  | init
  | linkFBO
  deriving Repr, DecidableEq

/-- Run a sequence of `init` / `linkFBO` steps, in order, on a render target. -/
def runSteps {σ : Type} (gl : GLFunctions σ) (c : GLConsts) :
    List Step → TEXFBO → σ → TEXFBO × σ
  | [], obj, s => (obj, s)
  | Step.init :: rest, obj, s =>
      runSteps gl c rest (TEXFBO.init gl c obj s).1 (TEXFBO.init gl c obj s).2
  | Step.linkFBO :: rest, obj, s =>
      runSteps gl c rest (TEXFBO.linkFBO gl c obj s).1 (TEXFBO.linkFBO gl c obj s).2

/-! ## Auxiliary facts -/

/-- An `int` sum that fits in 32 bits is the mathematical sum. -/
theorem addInt_of_fits (a b : Int)
    (h : -2147483648 ≤ a + b ∧ a + b ≤ 2147483647) : addInt a b = a + b := by
  unfold addInt wrapInt32
  omega

/-- The filter `FBO::blit` reads from its table, per mode. -/
theorem blitModes_get (c : GLConsts) (mode : FBO.BlitMode)
    (h : mode.toNat < (FBO.blitModes c).length) :
    (FBO.blitModes c).get ⟨mode.toNat, h⟩ =
      (match mode with
        | FBO.BlitMode.Nearest => c.GL_NEAREST
        | FBO.BlitMode.Linear => c.GL_LINEAR) := by
  cases mode <;> rfl

/-- `TEXFBO::init` keeps the recorded dimensions. -/
theorem init_dims {σ : Type} (gl : GLFunctions σ) (c : GLConsts) (obj : TEXFBO) (s : σ) :
    (TEXFBO.init gl c obj s).1.width = obj.width ∧
      (TEXFBO.init gl c obj s).1.height = obj.height :=
  ⟨rfl, rfl⟩

/-- `TEXFBO::linkFBO` returns the object it was given. -/
theorem linkFBO_obj {σ : Type} (gl : GLFunctions σ) (c : GLConsts) (obj : TEXFBO) (s : σ) :
    (TEXFBO.linkFBO gl c obj s).1 = obj :=
  rfl

/-- A run of `init` / `linkFBO` steps keeps the recorded dimensions. -/
theorem runSteps_dims {σ : Type} (gl : GLFunctions σ) (c : GLConsts) (steps : List Step) :
    ∀ (obj : TEXFBO) (s : σ),
      (runSteps gl c steps obj s).1.width = obj.width ∧
        (runSteps gl c steps obj s).1.height = obj.height := by
  induction steps with
  | nil => intro obj s; exact ⟨rfl, rfl⟩
  | cons st rest ih =>
    intro obj s
    cases st with
    | init =>
      have h := ih (TEXFBO.init gl c obj s).1 (TEXFBO.init gl c obj s).2
      have h0 := init_dims gl c obj s
      simp only [runSteps]
      exact ⟨h.1.trans h0.1, h.2.trans h0.2⟩
    | linkFBO =>
      have h := ih (TEXFBO.linkFBO gl c obj s).1 (TEXFBO.linkFBO gl c obj s).2
      simp only [runSteps]
      rw [linkFBO_obj] at h
      exact h

/-! ## The claims -/

/-- C1: for each of the four handle types (`TEX::ID`, `FBO::ID`, `VAO::ID`,
`GenericBO<target>::ID`) `a == b` is true exactly when `a.gl = b.gl`; a
default-constructed handle wraps `0` and compares equal to the handle
constructed from `0`. -/
theorem handle_eq_iff_gl_eq :
    (∀ a b : TEX.ID, TEX.ID.eq a b = true ↔ a.gl = b.gl) ∧
    (∀ a b : FBO.ID, FBO.ID.eq a b = true ↔ a.gl = b.gl) ∧
    (∀ a b : VAO.ID, VAO.ID.eq a b = true ↔ a.gl = b.gl) ∧
    (∀ (target : Nat) (a b : GenericBO.ID target), GenericBO.ID.eq a b = true ↔ a.gl = b.gl) ∧
    (TEX.ID.ctor0.gl = 0 ∧ TEX.ID.eq TEX.ID.ctor0 (TEX.ID.ctor 0) = true) ∧
    (FBO.ID.ctor0.gl = 0 ∧ FBO.ID.eq FBO.ID.ctor0 (FBO.ID.ctor 0) = true) ∧
    (VAO.ID.ctor0.gl = 0 ∧ VAO.ID.eq VAO.ID.ctor0 (VAO.ID.ctor 0) = true) ∧
    (∀ target : Nat, (GenericBO.ID.ctor0 target).gl = 0 ∧
      GenericBO.ID.eq (GenericBO.ID.ctor0 target) (GenericBO.ID.ctor target 0) = true) := by
  refine ⟨?_, ?_, ?_, ?_, ⟨rfl, rfl⟩, ⟨rfl, rfl⟩, ⟨rfl, rfl⟩, fun _ => ⟨rfl, rfl⟩⟩
  · intro a b; simp [TEX.ID.eq]
  · intro a b; simp [FBO.ID.eq]
  · intro a b; simp [VAO.ID.eq]
  · intro target a b; simp [GenericBO.ID.eq]

/-- C2: over every driver, `TEXFBO::allocEmpty(obj, w, h)` leaves `obj.width = w`
and `obj.height = h` whatever the object held before; in particular right after
`TEXFBO::init`, and of two allocations in a row the second one decides the
recorded dimensions; allocating at 256 x 128 records 256 and 128. -/
theorem allocEmpty_records_dimensions {σ : Type} (gl : GLFunctions σ) (c : GLConsts)
    (obj : TEXFBO) (s : σ) (w h w1 h1 w2 h2 : Int) :
    ((TEXFBO.allocEmpty gl c obj w h s).1.width = w ∧
      (TEXFBO.allocEmpty gl c obj w h s).1.height = h) ∧
    ((TEXFBO.allocEmpty gl c (TEXFBO.init gl c obj s).1 w h (TEXFBO.init gl c obj s).2).1.width = w ∧
      (TEXFBO.allocEmpty gl c (TEXFBO.init gl c obj s).1 w h (TEXFBO.init gl c obj s).2).1.height
        = h) ∧
    ((TEXFBO.allocEmpty gl c (TEXFBO.allocEmpty gl c obj w1 h1 s).1 w2 h2
        (TEXFBO.allocEmpty gl c obj w1 h1 s).2).1.width = w2 ∧
      (TEXFBO.allocEmpty gl c (TEXFBO.allocEmpty gl c obj w1 h1 s).1 w2 h2
        (TEXFBO.allocEmpty gl c obj w1 h1 s).2).1.height = h2) ∧
    ((TEXFBO.allocEmpty gl c obj 256 128 s).1.width = 256 ∧
      (TEXFBO.allocEmpty gl c obj 256 128 s).1.height = 128) :=
  ⟨⟨rfl, rfl⟩, ⟨rfl, rfl⟩, ⟨rfl, rfl⟩, ⟨rfl, rfl⟩⟩

/-- C3: on the reference driver, from every state and for all `W`, `x`, `y`,
`setupSubImage(W, x, y)` followed by `reset()` ends in the very state that
`setupSubImage(0, 0, 0)` produces from the same start; there the row length,
skip-pixels and skip-rows parameters are all `0`; a further `reset()` changes
nothing.  Over every driver `reset()` is `setupSubImage(0, 0, 0)`. -/
theorem setupSubImage_reset_restores_default (c : GLConsts) (s : GLState) (W x y : Int) :
    PixelStore.reset (glModel c) c (PixelStore.setupSubImage (glModel c) c W x y s)
      = PixelStore.setupSubImage (glModel c) c 0 0 0 s ∧
    ((PixelStore.reset (glModel c) c
        (PixelStore.setupSubImage (glModel c) c W x y s)).unpack c.GL_UNPACK_ROW_LENGTH = 0 ∧
      (PixelStore.reset (glModel c) c
        (PixelStore.setupSubImage (glModel c) c W x y s)).unpack c.GL_UNPACK_SKIP_PIXELS = 0 ∧
      (PixelStore.reset (glModel c) c
        (PixelStore.setupSubImage (glModel c) c W x y s)).unpack c.GL_UNPACK_SKIP_ROWS = 0) ∧
    PixelStore.reset (glModel c) c
        (PixelStore.reset (glModel c) c (PixelStore.setupSubImage (glModel c) c W x y s))
      = PixelStore.reset (glModel c) c (PixelStore.setupSubImage (glModel c) c W x y s) ∧
    (∀ (σ : Type) (gl : GLFunctions σ) (t : σ),
      PixelStore.reset gl c t = PixelStore.setupSubImage gl c 0 0 0 t) := by
  refine ⟨?_, ⟨?_, ?_, ?_⟩, ?_, fun _ _ _ => rfl⟩
  · simp only [PixelStore.reset, PixelStore.setupSubImage, glModel]
    congr 1
    funext k
    simp only [Function.update_apply]
    split_ifs <;> rfl
  · simp only [PixelStore.reset, PixelStore.setupSubImage, glModel, Function.update_apply]
    split_ifs <;> rfl
  · simp only [PixelStore.reset, PixelStore.setupSubImage, glModel, Function.update_apply]
    split_ifs <;> rfl
  · simp only [PixelStore.reset, PixelStore.setupSubImage, glModel, Function.update_apply]
    split_ifs <;> rfl
  · simp only [PixelStore.reset, PixelStore.setupSubImage, glModel]
    congr 1
    funext k
    simp only [Function.update_apply]
    split_ifs <;> rfl

/-- C4: over every driver and for every blit mode, the six-coordinate
`FBO::blit(srcX, srcY, dstX, dstY, W, H, mode)` has the effect of the
eight-coordinate `FBO::blit(srcX, srcY, W, H, dstX, dstY, W, H, mode)`, and the
call it issues is the single `BlitFramebuffer` whose source and destination
rectangles both span `W` by `H`. -/
theorem blit_overloads_agree {σ : Type} (gl : GLFunctions σ) (c : GLConsts)
    (srcX srcY dstX dstY W H : Int) (mode : FBO.BlitMode) (s : σ) (l : List GLCall) :
    FBO.blit6 gl c srcX srcY dstX dstY W H mode s
      = FBO.blit gl c srcX srcY W H dstX dstY W H mode s ∧
    (FBO.blit6 (logged gl) c srcX srcY dstX dstY W H mode (s, l)).2
      = (FBO.blit (logged gl) c srcX srcY W H dstX dstY W H mode (s, l)).2 ∧
    (FBO.blit6 (logged gl) c srcX srcY dstX dstY W H mode (s, l)).2
      = l ++ [GLCall.BlitFramebuffer srcX srcY (addInt srcX W) (addInt srcY H)
          dstX dstY (addInt dstX W) (addInt dstY H) c.GL_COLOR_BUFFER_BIT
          (match mode with
            | FBO.BlitMode.Nearest => c.GL_NEAREST
            | FBO.BlitMode.Linear => c.GL_LINEAR)] := by
  refine ⟨rfl, rfl, ?_⟩
  cases mode <;> rfl

/-- C5: `a == b` on render targets is true exactly when both handle pairs
compare equal, that is when the texture names agree and the framebuffer names
agree; it is false exactly when a handle differs; the recorded dimensions play
no part: equal handles with any dimensions compare equal, and equal dimensions
with a differing handle compare unequal. -/
theorem texfbo_eq_compares_handles_only :
    (∀ a b : TEXFBO, TEXFBO.eq a b = true ↔
      (TEX.ID.eq a.tex b.tex = true ∧ FBO.ID.eq a.fbo b.fbo = true)) ∧
    (∀ a b : TEXFBO, TEXFBO.eq a b = true ↔ (a.tex.gl = b.tex.gl ∧ a.fbo.gl = b.fbo.gl)) ∧
    (∀ a b : TEXFBO, TEXFBO.eq a b = false ↔ (a.tex.gl ≠ b.tex.gl ∨ a.fbo.gl ≠ b.fbo.gl)) ∧
    (∀ (t : TEX.ID) (f : FBO.ID) (w1 h1 w2 h2 : Int),
      TEXFBO.eq (TEXFBO.mk t f w1 h1) (TEXFBO.mk t f w2 h2) = true) ∧
    TEXFBO.eq (TEXFBO.mk (TEX.ID.ctor 1) (FBO.ID.ctor 2) 256 128)
      (TEXFBO.mk (TEX.ID.ctor 1) (FBO.ID.ctor 2) 64 32) = true ∧
    TEXFBO.eq (TEXFBO.mk (TEX.ID.ctor 1) (FBO.ID.ctor 2) 256 128)
      (TEXFBO.mk (TEX.ID.ctor 3) (FBO.ID.ctor 2) 256 128) = false ∧
    TEXFBO.eq (TEXFBO.mk (TEX.ID.ctor 1) (FBO.ID.ctor 2) 256 128)
      (TEXFBO.mk (TEX.ID.ctor 1) (FBO.ID.ctor 4) 256 128) = false := by
  refine ⟨?_, ?_, ?_, ?_, rfl, rfl, rfl⟩
  · intro a b; simp [TEXFBO.eq]
  · intro a b; simp [TEXFBO.eq, TEX.ID.eq, FBO.ID.eq]
  · intro a b
    simp only [TEXFBO.eq, TEX.ID.eq, FBO.ID.eq, Bool.and_eq_false_iff, beq_eq_false_iff_ne, ne_eq]
  · intro t f w1 h1 w2 h2; simp [TEXFBO.eq, TEX.ID.eq, FBO.ID.eq]

/-- C6: a newly constructed `TEXFBO` has texture name 0, framebuffer name 0,
width 0 and height 0; over every driver `TEXFBO::init` and `TEXFBO::linkFBO`
leave width and height as they were; hence after any sequence of `init` and
`linkFBO` steps from construction, with no `allocEmpty`, width and height are
both 0. -/
theorem dimensions_zero_before_allocation {σ : Type} (gl : GLFunctions σ) (c : GLConsts)
    (steps : List Step) (s : σ) :
    (TEXFBO.ctor.tex.gl = 0 ∧ TEXFBO.ctor.fbo.gl = 0 ∧
      TEXFBO.ctor.width = 0 ∧ TEXFBO.ctor.height = 0) ∧
    (∀ (obj : TEXFBO) (t : σ),
      (TEXFBO.init gl c obj t).1.width = obj.width ∧
        (TEXFBO.init gl c obj t).1.height = obj.height) ∧
    (∀ (obj : TEXFBO) (t : σ),
      (TEXFBO.linkFBO gl c obj t).1.width = obj.width ∧
        (TEXFBO.linkFBO gl c obj t).1.height = obj.height) ∧
    ((runSteps gl c steps TEXFBO.ctor s).1.width = 0 ∧
      (runSteps gl c steps TEXFBO.ctor s).1.height = 0) :=
  ⟨⟨rfl, rfl, rfl, rfl⟩, fun obj t => init_dims gl c obj t, fun _ _ => ⟨rfl, rfl⟩,
    runSteps_dims gl c steps TEXFBO.ctor s⟩

/-- C7: over every driver, the calls `TEXFBO::fini(obj)` issues are exactly one
`DeleteFramebuffers` naming `obj.fbo` followed by one `DeleteTextures` naming
`obj.tex`, nothing else; the object comes back with both handles, width and
height as they were. -/
theorem fini_deletes_both {σ : Type} (gl : GLFunctions σ) (obj : TEXFBO) (s : σ)
    (l : List GLCall) :
    (TEXFBO.fini (logged gl) obj (s, l)).2.2
      = l ++ [GLCall.DeleteFramebuffers 1 obj.fbo.gl, GLCall.DeleteTextures 1 obj.tex.gl] ∧
    (TEXFBO.fini (logged gl) obj (s, l)).2.1
      = gl.DeleteTextures 1 obj.tex.gl (gl.DeleteFramebuffers 1 obj.fbo.gl s) ∧
    (TEXFBO.fini (logged gl) obj (s, l)).1 = obj ∧
    (TEXFBO.fini gl obj s).1 = obj ∧
    ((TEXFBO.fini gl obj s).1.tex = obj.tex ∧ (TEXFBO.fini gl obj s).1.fbo = obj.fbo ∧
      (TEXFBO.fini gl obj s).1.width = obj.width ∧
      (TEXFBO.fini gl obj s).1.height = obj.height) := by
  refine ⟨?_, rfl, rfl, rfl, rfl, rfl, rfl, rfl⟩
  simp [TEXFBO.fini, FBO.del, TEX.del, logged]

/-- C8: `TEXFBO::linkFBO(obj)` issues, over every driver, a `BindFramebuffer`
of `obj.fbo` to the draw target followed by a `FramebufferTexture2D` of
`obj.tex` at attachment point `GL_COLOR_ATTACHMENT0 + 0`, and returns `obj`
unchanged; on the reference driver, from every state, `obj.fbo` is afterwards
the framebuffer bound for drawing and its color attachment 0 is `obj.tex`, and
`FBO::setTarget` attaches to whatever framebuffer is bound for drawing. -/
theorem linkFBO_binds_and_attaches {σ : Type} (gl : GLFunctions σ) (c : GLConsts)
    (obj : TEXFBO) (t : σ) (l : List GLCall) (s : GLState) (tex : TEX.ID) :
    (TEXFBO.linkFBO (logged gl) c obj (t, l)).2.2
      = l ++ [GLCall.BindFramebuffer c.GL_DRAW_FRAMEBUFFER obj.fbo.gl,
          GLCall.FramebufferTexture2D c.GL_FRAMEBUFFER (addUInt c.GL_COLOR_ATTACHMENT0 0)
            c.GL_TEXTURE_2D obj.tex.gl 0] ∧
    (TEXFBO.linkFBO (glModel c) c obj s).2.drawFramebuffer = obj.fbo.gl ∧
    (TEXFBO.linkFBO (glModel c) c obj s).2.colorAttachment
        (obj.fbo.gl, addUInt c.GL_COLOR_ATTACHMENT0 0) = obj.tex.gl ∧
    (FBO.setTarget (glModel c) c tex 0 s).colorAttachment
        (s.drawFramebuffer, addUInt c.GL_COLOR_ATTACHMENT0 0) = tex.gl ∧
    addUInt glRegistry.GL_COLOR_ATTACHMENT0 0 = glRegistry.GL_COLOR_ATTACHMENT0 ∧
    (TEXFBO.linkFBO gl c obj t).1 = obj ∧
    (TEXFBO.linkFBO (glModel c) c obj s).1 = obj := by
  refine ⟨?_, ?_, ?_, ?_, rfl, rfl, rfl⟩
  · simp [TEXFBO.linkFBO, FBO.bind, FBO.setTarget, FBO.bindModes, FBO.Mode.toNat, logged]
  · simp only [TEXFBO.linkFBO, FBO.bind, FBO.setTarget, FBO.bindModes, FBO.Mode.toNat, glModel,
      List.get_eq_getElem, List.getElem_cons_zero, true_or, if_true]
    split_ifs <;> rfl
  · simp only [TEXFBO.linkFBO, FBO.bind, FBO.setTarget, FBO.bindModes, FBO.Mode.toNat, glModel,
      List.get_eq_getElem, List.getElem_cons_zero, true_or, if_true]
    by_cases h : c.GL_DRAW_FRAMEBUFFER = c.GL_FRAMEBUFFER
    · rw [if_pos h]
      simp
    · rw [if_neg h]
      simp
  · simp [FBO.setTarget, glModel]

/-- C9: over every driver, `TEXFBO::init(obj)` stores in `obj.tex` the name the
`GenTextures` call returns and in `obj.fbo` the name the following
`GenFramebuffers` call returns; the calls it issues are, in order, the two
creations, `BindTexture` of the new `obj.tex` to the 2D target, then four
`TexParameteri` on that target: wrap S and wrap T set to clamp-to-edge, the
minification and magnification filters set to nearest. -/
theorem init_acquires_and_configures {σ : Type} (gl : GLFunctions σ) (c : GLConsts)
    (obj : TEXFBO) (s : σ) (l : List GLCall) :
    (TEXFBO.init gl c obj s).1.tex.gl = (gl.GenTextures 1 0 s).1 ∧
    (TEXFBO.init gl c obj s).1.fbo.gl
      = (gl.GenFramebuffers 1 0 (gl.GenTextures 1 0 s).2).1 ∧
    (TEXFBO.init (logged gl) c obj (s, l)).1 = (TEXFBO.init gl c obj s).1 ∧
    (TEXFBO.init (logged gl) c obj (s, l)).2.1 = (TEXFBO.init gl c obj s).2 ∧
    (TEXFBO.init (logged gl) c obj (s, l)).2.2
      = l ++ [GLCall.GenTextures 1 0,
          GLCall.GenFramebuffers 1 0,
          GLCall.BindTexture c.GL_TEXTURE_2D (TEXFBO.init gl c obj s).1.tex.gl,
          GLCall.TexParameteri c.GL_TEXTURE_2D c.GL_TEXTURE_WRAP_S (c.GL_CLAMP_TO_EDGE : Int),
          GLCall.TexParameteri c.GL_TEXTURE_2D c.GL_TEXTURE_WRAP_T (c.GL_CLAMP_TO_EDGE : Int),
          GLCall.TexParameteri c.GL_TEXTURE_2D c.GL_TEXTURE_MIN_FILTER (c.GL_NEAREST : Int),
          GLCall.TexParameteri c.GL_TEXTURE_2D c.GL_TEXTURE_MAG_FILTER (c.GL_NEAREST : Int)] := by
  refine ⟨rfl, rfl, rfl, rfl, ?_⟩
  simp [TEXFBO.init, TEX.gen, FBO.gen, TEX.bind, TEX.setRepeat, TEX.setSmooth, logged,
    TEX.ID.ctor0, TEX.ID.ctor, FBO.ID.ctor0, FBO.ID.ctor]

/-- C10: when the four sums `srcX+srcW`, `srcY+srcH`, `dstX+dstW`, `dstY+dstH`
fit in a 32-bit signed `int`, the eight-coordinate `FBO::blit` issues, over
every driver, the single call `BlitFramebuffer` with source corners
`(srcX, srcY, srcX+srcW, srcY+srcH)`, destination corners
`(dstX, dstY, dstX+dstW, dstY+dstH)`, the mask `GL_COLOR_BUFFER_BIT` and the
filter of the mode (`GL_NEAREST` for `Nearest`, `GL_LINEAR` for `Linear`), and
the driver receives exactly that call; the index into the two-entry filter
table is in bounds for both modes. -/
theorem blit_corner_coordinates {σ : Type} (gl : GLFunctions σ) (c : GLConsts)
    (srcX srcY srcW srcH dstX dstY dstW dstH : Int) (mode : FBO.BlitMode) (s : σ)
    (l : List GLCall)
    (hsx : -2147483648 ≤ srcX + srcW ∧ srcX + srcW ≤ 2147483647)
    (hsy : -2147483648 ≤ srcY + srcH ∧ srcY + srcH ≤ 2147483647)
    (hdx : -2147483648 ≤ dstX + dstW ∧ dstX + dstW ≤ 2147483647)
    (hdy : -2147483648 ≤ dstY + dstH ∧ dstY + dstH ≤ 2147483647) :
    (FBO.blit (logged gl) c srcX srcY srcW srcH dstX dstY dstW dstH mode (s, l)).2
      = l ++ [GLCall.BlitFramebuffer srcX srcY (srcX + srcW) (srcY + srcH)
          dstX dstY (dstX + dstW) (dstY + dstH) c.GL_COLOR_BUFFER_BIT
          (match mode with
            | FBO.BlitMode.Nearest => c.GL_NEAREST
            | FBO.BlitMode.Linear => c.GL_LINEAR)] ∧
    FBO.blit gl c srcX srcY srcW srcH dstX dstY dstW dstH mode s
      = gl.BlitFramebuffer srcX srcY (srcX + srcW) (srcY + srcH)
          dstX dstY (dstX + dstW) (dstY + dstH) c.GL_COLOR_BUFFER_BIT
          (match mode with
            | FBO.BlitMode.Nearest => c.GL_NEAREST
            | FBO.BlitMode.Linear => c.GL_LINEAR) s ∧
    (FBO.blitModes c).length = 2 ∧
    mode.toNat < (FBO.blitModes c).length ∧
    (FBO.blitModes c)[mode.toNat]? = some (match mode with
      | FBO.BlitMode.Nearest => c.GL_NEAREST
      | FBO.BlitMode.Linear => c.GL_LINEAR) := by
  refine ⟨?_, ?_, rfl, ?_, ?_⟩
  · cases mode <;>
      simp only [FBO.blit, logged, addInt_of_fits _ _ hsx, addInt_of_fits _ _ hsy,
        addInt_of_fits _ _ hdx, addInt_of_fits _ _ hdy] <;> rfl
  · cases mode <;>
      simp only [FBO.blit, addInt_of_fits _ _ hsx, addInt_of_fits _ _ hsy,
        addInt_of_fits _ _ hdx, addInt_of_fits _ _ hdy] <;> rfl
  · cases mode <;> simp [FBO.blitModes, FBO.BlitMode.toNat]
  · cases mode <;> rfl

/-- C10, at a concrete input: a 30 x 40 source rectangle at (10, 20) blitted
linearly onto a 60 x 80 destination rectangle at (1, 2), with the registry's
constants. -/
theorem blit_corner_coordinates_witness :
    ((-2147483648 : Int) ≤ 10 + 30 ∧ (10 : Int) + 30 ≤ 2147483647) ∧
    ((-2147483648 : Int) ≤ 20 + 40 ∧ (20 : Int) + 40 ≤ 2147483647) ∧
    ((-2147483648 : Int) ≤ 1 + 60 ∧ (1 : Int) + 60 ≤ 2147483647) ∧
    ((-2147483648 : Int) ≤ 2 + 80 ∧ (2 : Int) + 80 ≤ 2147483647) ∧
    (FBO.blit (logged glNull) glRegistry 10 20 30 40 1 2 60 80
        FBO.BlitMode.Linear ((), [])).2
      = [GLCall.BlitFramebuffer 10 20 40 60 1 2 61 82 0x4000 0x2601] :=
  ⟨by decide, by decide, by decide, by decide,
    (blit_corner_coordinates glNull glRegistry 10 20 30 40 1 2 60 80
      FBO.BlitMode.Linear () [] (by decide) (by decide) (by decide) (by decide)).1⟩

end GLUtil
